import Mathlib

/-!
Verification development for the lost/found device backend
(src/backend/routes.py).  The route handlers are shallowly embedded:
Python floats are modelled as rationals (every Python float value is a
rational number) except where the haversine trigonometry forces real
numbers; `float('inf')` is modelled by `⊤` in `WithTop ℝ`; fallible
handlers return `Except`.  The device store (models.py, not part of the
sources) is modelled as a list of device rows in iteration order, with
store primitives modelled from the spec where noted.
-/

set_option maxHeartbeats 1000000

namespace Routes

/-- A raw HTTP query-string value as seen by `request.args.get`:
either a non-empty string that `float(...)` parses to the value `x`
(`qnum x`), the empty string (`qempty`), or a non-empty string on which
`float(...)` raises (`qbad`). -/
inductive QVal where
  | qnum (x : ℚ)
  | qempty
  | qbad
deriving DecidableEq

/-- Python truthiness of a query-string value: only the empty string is
falsy. -/
def qtruthy : QVal → Bool
  | .qempty => false
  | _ => true

/-- Result of `float(v)` on a query value: `some x` on success, `none`
when `ValueError` is raised (empty or non-numeric string). -/
def qparse : QVal → Option ℚ
  | .qnum x => some x
  | _ => none

/-- A JSON value supplied for a coordinate field of an update payload:
`null`, the empty string, a value that `float(...)` parses to `x`
(a number or numeric string), or an unparsable value on which
`float(...)` raises. -/
inductive JNum where
  | null
  | emptyStr
  | num (x : ℚ)
  | badStr
deriving DecidableEq

/-- Python `str.strip()`: remove leading and trailing whitespace
characters. -/
def pystrip (s : String) : String :=
  ⟨((s.data.dropWhile Char.isWhitespace).reverse.dropWhile Char.isWhitespace).reverse⟩

/-- A device row (class `Device` of models.py): coordinate floats are
modelled as optional rationals, timestamps as naturals.  `to_dict()` is
modelled as the row itself (serialisation is external glue). -/
structure Device where
  id : ℕ
  user_id : ℕ
  name : String
  description : String
  category : String
  status : String
  location : String
  latitude : Option ℚ
  longitude : Option ℚ
  created_at : ℕ
  updated_at : ℕ
deriving DecidableEq

/-- Machine-distinguishable error kinds of the handlers, one per
distinct early-return `jsonify(...), 4xx` site used by the embedded
routes. -/
inductive ApiErr where
  | notFound
  | forbidden
  | noData
  | emptyName
  | badStatus
  | latRange
  | latFormat
  | lngRange
  | lngFormat
  | latLngRequired
  | invalidCoords
  | searchRequired
  | statusRequired
  | notLost
  | locationRequired
deriving DecidableEq

/-- HTTP status code the route attaches to each error kind. -/
def httpStatus : ApiErr → ℕ
  | .notFound => 404
  | .forbidden => 403
  | _ => 400

/-- Degree-to-radian conversion, `math.radians` (routes.py line 15). -/
noncomputable def radians (x : ℚ) : ℝ := x * Real.pi / 180

/-- Haversine body of `calculate_distance` (routes.py lines 14-25):
`a = sin²(Δlat/2) + cos lat1 · cos lat2 · sin²(Δlon/2)`,
`c = 2·asin(√a)`, result `c · 6371` kilometers. -/
noncomputable def haversine (lat1 lon1 lat2 lon2 : ℚ) : ℝ :=
  let l1 := radians lat1
  let o1 := radians lon1
  let l2 := radians lat2
  let o2 := radians lon2
  let dlat := l2 - l1
  let dlon := o2 - o1
  let a := Real.sin (dlat / 2) ^ 2 + Real.cos l1 * Real.cos l2 * Real.sin (dlon / 2) ^ 2
  let c := 2 * Real.arcsin (Real.sqrt a)
  c * 6371

/-- The function `calculate_distance` (routes.py lines 9-25).  An
argument may be absent (`none` models Python `None`); the guard
`if not all([lat1, lon1, lat2, lon2])` fires when any argument is
`None` or the float `0.0`, returning `float('inf')`, modelled by `⊤`. -/
noncomputable def calculate_distance (lat1 lon1 lat2 lon2 : Option ℚ) : WithTop ℝ :=
  match lat1, lon1, lat2, lon2 with
  | some a, some b, some c, some d =>
      if a = 0 ∨ b = 0 ∨ c = 0 ∨ d = 0 then ⊤
      else ((haversine a b c d : ℝ) : WithTop ℝ)
  | _, _, _, _ => ⊤

/-- Python `round(x, 2)`: rounding half to even at two decimal places
(exact ties pick the even hundredth). -/
noncomputable def pyRound2 (x : ℝ) : ℝ :=
  let y := x * 100
  let n : ℤ :=
    if Int.fract y = 1 / 2 then (if Int.floor y % 2 = 0 then Int.floor y else Int.floor y + 1)
    else round y
  (n : ℝ) / 100

/-- Python `round(x, 2)` on a float that may be infinite:
`round(inf, 2) = inf`. -/
noncomputable def pyRound2T : WithTop ℝ → WithTop ℝ :=
  WithTop.map pyRound2

/-- One insertion step of a stable ascending sort by key: `x` goes in
front of the first element whose key is not strictly smaller, hence
after strictly-smaller keys and before equal keys of later elements. -/
def insertByKey {α K : Type} [LinearOrder K] (key : α → K) (x : α) : List α → List α
  | [] => [x]
  | y :: ys => if key y < key x then y :: insertByKey key x ys else x :: y :: ys

/-- Stable ascending sort by key, the semantics of Python
`list.sort(key=...)` (a stable ascending sort). -/
def sortByKey {α K : Type} [LinearOrder K] (key : α → K) : List α → List α
  | [] => []
  | x :: xs => insertByKey key x (sortByKey key xs)

/-- Loop body of the proximity loops (routes.py lines 336-342 and
449-455): a device contributes a dict with its rounded distance exactly
when `device.latitude and device.longitude` is truthy (both present and
non-zero) and the computed distance is at most the radius. -/
noncomputable def nearbyEntry (lat lng radius : ℚ) (device : Device) :
    Option (Device × WithTop ℝ) :=
  match device.latitude, device.longitude with
  | some dlat, some dlng =>
      if dlat ≠ 0 ∧ dlng ≠ 0 then
        if calculate_distance (some lat) (some lng) (some dlat) (some dlng) ≤
            ((radius : ℝ) : WithTop ℝ) then
          some (device, pyRound2T (calculate_distance (some lat) (some lng)
            (some dlat) (some dlng)))
        else none
      else none
  | _, _ => none

/-- The `for device in devices: ... nearby_devices.append(...)` loop of
both proximity routes, collecting entries in store iteration order. -/
noncomputable def collectNearby (lat lng radius : ℚ) (devices : List Device) :
    List (Device × WithTop ℝ) :=
  devices.filterMap (nearbyEntry lat lng radius)

/-- Modelled from the spec: the store query scoped to the owner
(`Device.find_by_user_id` / `Device.query.filter_by(user_id=...)` of the
missing models.py; spec §6 `listByOwner`), returning rows in store
iteration order. -/
def find_by_user_id (store : List Device) (uid : ℕ) : List Device :=
  store.filter (fun d => d.user_id == uid)

/-- Optional status pre-filter of the nearby route (routes.py lines
443-444): applied only when the status argument is truthy and one of the
two enum values, otherwise silently skipped. -/
def statusFilter (statusArg : Option String) (devices : List Device) : List Device :=
  match statusArg with
  | some s =>
      if s ≠ "" ∧ (s = "lost" ∨ s = "found") then devices.filter (fun d => d.status == s)
      else devices
  | none => devices

/-- Query arguments of GET /devices/nearby. -/
structure NearbyArgs where
  lat : Option QVal
  lng : Option QVal
  radius : Option QVal
  status : Option String
deriving DecidableEq

/-- Handler `get_nearby_devices` (routes.py lines 417-463) for an
authenticated caller: requires truthy lat/lng, parses the three floats
(radius defaulting to 5), filters the caller's devices (optionally by
status), collects qualifying entries and sorts them ascending by the
stored rounded distance. -/
noncomputable def get_nearby_devices (store : List Device) (caller : ℕ)
    (args : NearbyArgs) : Except ApiErr (List (Device × WithTop ℝ)) :=
  match args.lat, args.lng with
  | some la, some lo =>
      if qtruthy la ∧ qtruthy lo then
        match qparse la, qparse lo,
            (match args.radius with | none => some (5 : ℚ) | some r => qparse r) with
        | some lat, some lng, some radius =>
            .ok (sortByKey (fun e => e.2)
              (collectNearby lat lng radius
                (statusFilter args.status (find_by_user_id store caller))))
        | _, _, _ => .error .invalidCoords
      else .error .latLngRequired
  | _, _ => .error .latLngRequired

/-- Query arguments of GET /devices/search. -/
structure SearchArgs where
  q : String
  lat : Option QVal
  lng : Option QVal
  radius : Option QVal
deriving DecidableEq

/-- Result shape of the search route: a plain device list for the text
branch, devices paired with rounded distances for the location branch. -/
inductive SearchOut where
  | textResults (devices : List Device)
  | locResults (entries : List (Device × WithTop ℝ))

/-- Handler `search_devices` (routes.py lines 306-356) for an
authenticated caller.  `textSearch` is the external store collaborator
`Device.search_devices` (spec §6 `searchByOwner`), passed as an explicit
dependency.  A non-empty stripped `q` takes the text branch; otherwise
truthy lat/lng take the location branch (radius defaulting to 10),
identical to the nearby loop; otherwise the request is rejected. -/
noncomputable def search_devices (textSearch : String → ℕ → List Device)
    (store : List Device) (caller : ℕ) (args : SearchArgs) : Except ApiErr SearchOut :=
  let query := pystrip args.q
  if query ≠ "" then .ok (.textResults (textSearch query caller))
  else
    match args.lat, args.lng with
    | some la, some lo =>
        if qtruthy la ∧ qtruthy lo then
          match qparse la, qparse lo,
              (match args.radius with | none => some (10 : ℚ) | some r => qparse r) with
          | some lat, some lng, some radius =>
              .ok (.locResults (sortByKey (fun e => e.2)
                (collectNearby lat lng radius (find_by_user_id store caller))))
          | _, _, _ => .error .invalidCoords
        else .error .searchRequired
    | _, _ => .error .searchRequired

/-- JSON payload of PUT /devices/(id): a sparse set of fields.  `none`
means the key is absent from the JSON object; string fields carry JSON
strings and coordinate fields arbitrary JSON values via `JNum`. -/
structure UpdatePayload where
  name : Option String
  description : Option String
  device_type : Option String
  category : Option String
  location : Option String
  location_text : Option String
  status : Option String
  latitude : Option JNum
  longitude : Option JNum
deriving DecidableEq

/-- Python `if not data` on the parsed JSON: true when the body was
absent/null or the object empty. -/
def UpdatePayload.isEmptyP (p : UpdatePayload) : Bool :=
  p.name.isNone && p.description.isNone && p.device_type.isNone && p.category.isNone &&
  p.location.isNone && p.location_text.isNone && p.status.isNone &&
  p.latitude.isNone && p.longitude.isNone

/-- Name step of `update_device` (routes.py lines 161-164): a present
name must be non-empty after stripping. -/
def applyName (p : UpdatePayload) (d : Device) : Except ApiErr Device :=
  match p.name with
  | none => .ok d
  | some s => if pystrip s = "" then .error .emptyName else .ok { d with name := pystrip s }

/-- Description step (routes.py lines 166-167). -/
def applyDescription (p : UpdatePayload) (d : Device) : Device :=
  match p.description with
  | none => d
  | some s => { d with description := pystrip s }

/-- Backward-compatibility step (routes.py lines 170-171):
`device_type` writes the category field. -/
def applyDeviceType (p : UpdatePayload) (d : Device) : Device :=
  match p.device_type with
  | none => d
  | some s => { d with category := pystrip s }

/-- Category step (routes.py lines 173-174), overriding a preceding
`device_type` write when both keys are present. -/
def applyCategory (p : UpdatePayload) (d : Device) : Device :=
  match p.category with
  | none => d
  | some s => { d with category := pystrip s }

/-- Location step (routes.py lines 177-180): `location` wins over the
`location_text` alias. -/
def applyLocation (p : UpdatePayload) (d : Device) : Device :=
  match p.location with
  | some s => { d with location := pystrip s }
  | none =>
    match p.location_text with
    | some s => { d with location := pystrip s }
    | none => d

/-- Status step (routes.py lines 182-185): a present status must be one
of the two enum values. -/
def applyStatus (p : UpdatePayload) (d : Device) : Except ApiErr Device :=
  match p.status with
  | none => .ok d
  | some s =>
      if s = "lost" ∨ s = "found" then .ok { d with status := s } else .error .badStatus

/-- Latitude step (routes.py lines 188-198): null/empty clears the
coordinate, a parsable value must lie in [-90, 90], an unparsable value
is a format error. -/
def applyLatitude (p : UpdatePayload) (d : Device) : Except ApiErr Device :=
  match p.latitude with
  | none => .ok d
  | some .null => .ok { d with latitude := none }
  | some .emptyStr => .ok { d with latitude := none }
  | some (.num x) =>
      if -90 ≤ x ∧ x ≤ 90 then .ok { d with latitude := some x } else .error .latRange
  | some .badStr => .error .latFormat

/-- Longitude step (routes.py lines 200-210), range [-180, 180]. -/
def applyLongitude (p : UpdatePayload) (d : Device) : Except ApiErr Device :=
  match p.longitude with
  | none => .ok d
  | some .null => .ok { d with longitude := none }
  | some .emptyStr => .ok { d with longitude := none }
  | some (.num x) =>
      if -180 ≤ x ∧ x ≤ 180 then .ok { d with longitude := some x } else .error .lngRange
  | some .badStr => .error .lngFormat

/-- Field-update section of `update_device` (routes.py lines 160-210),
threading the in-memory device through the steps in source order; a
validation failure returns early, before `device.save()` is reached, so
the store is left untouched. -/
def update_fields (device : Device) (p : UpdatePayload) : Except ApiErr Device :=
  (applyName p device).bind fun d1 =>
    (applyStatus p (applyLocation p (applyCategory p (applyDeviceType p
        (applyDescription p d1))))).bind fun d6 =>
      (applyLatitude p d6).bind fun d7 =>
        applyLongitude p d7

/-- Modelled from the spec: committing the mutated row through
`device.save()` of the missing models.py replaces the row with the
device's id in the store, preserving iteration order (ids are unique per
spec §3). -/
def replaceById (store : List Device) (device_id : ℕ) (d : Device) : List Device :=
  store.map (fun e => if e.id = device_id then d else e)

/-- Modelled from the spec: `Device.find_by_id` of the missing
models.py (spec §6 `get`), the row with the given id. -/
def find_by_id (store : List Device) (device_id : ℕ) : Option Device :=
  store.find? (fun d => d.id == device_id)

/-- Handler `update_device` (routes.py lines 138-223) for an
authenticated caller, returning the response and the store after the
request: existence is checked before ownership; an empty body or any
invalid present field aborts before `device.save()`, leaving the store
unchanged; on success `updated_at` is set (line 213) and the row is
committed. -/
def update_device (store : List Device) (caller device_id : ℕ)
    (p : UpdatePayload) (now : ℕ) : Except ApiErr Device × List Device :=
  match find_by_id store device_id with
  | none => (.error .notFound, store)
  | some device =>
      if device.user_id ≠ caller then (.error .forbidden, store)
      else if p.isEmptyP then (.error .noData, store)
      else
        match update_fields device p with
        | .error e => (.error e, store)
        | .ok d0 =>
            let d1 := { d0 with updated_at := now }
            (.ok d1, replaceById store device_id d1)

/-- Handler `update_device_status` (routes.py lines 269-304).  The
status argument is `none` when the body is missing or has no status key.
The store method `Device.update_status` is modelled from the spec
(§4.3 status-only update, §3 `updated_at` refreshed on mutation): it
sets the status, refreshes `updated_at` and commits. -/
def update_device_status (store : List Device) (caller device_id : ℕ)
    (statusArg : Option String) (now : ℕ) : Except ApiErr Device × List Device :=
  match find_by_id store device_id with
  | none => (.error .notFound, store)
  | some device =>
      if device.user_id ≠ caller then (.error .forbidden, store)
      else
        match statusArg with
        | none => (.error .statusRequired, store)
        | some s =>
            if s = "lost" ∨ s = "found" then
              let d1 := { device with status := s, updated_at := now }
              (.ok d1, replaceById store device_id d1)
            else (.error .badStatus, store)

/-- Handler `delete_device` (routes.py lines 225-251).  The store
method `device.delete()` is modelled from the spec (§3 explicit
owner-authorized removal): it erases the row with the device's id. -/
def delete_device (store : List Device) (caller device_id : ℕ) :
    Except ApiErr Unit × List Device :=
  match find_by_id store device_id with
  | none => (.error .notFound, store)
  | some device =>
      if device.user_id ≠ caller then (.error .forbidden, store)
      else (.ok (), store.filter (fun e => e.id != device_id))

/-- Python truthiness of an optional coordinate attribute: falsy when
`None` or `0.0`. -/
def coordTruthy : Option ℚ → Bool
  | none => false
  | some x => x != 0

/-- Handler `start_device_tracking` (routes.py lines 358-392): after
existence and ownership, requires status exactly "lost" and truthy
latitude and longitude, then returns the device with the token
`track_(id)_(timestamp)` without saving anything. -/
def start_device_tracking (store : List Device) (caller device_id : ℕ)
    (now : ℕ) : Except ApiErr (Device × String) × List Device :=
  match find_by_id store device_id with
  | none => (.error .notFound, store)
  | some device =>
      if device.user_id ≠ caller then (.error .forbidden, store)
      else if device.status ≠ "lost" then (.error .notLost, store)
      else if ¬ (coordTruthy device.latitude ∧ coordTruthy device.longitude) then
        (.error .locationRequired, store)
      else
        (.ok (device, "track_" ++ toString device_id ++ "_" ++ toString now), store)

/-- Handler `stop_device_tracking` (routes.py lines 394-415): only the
existence and ownership checks, then a success message. -/
def stop_device_tracking (store : List Device) (caller device_id : ℕ) :
    Except ApiErr Unit × List Device :=
  match find_by_id store device_id with
  | none => (.error .notFound, store)
  | some device =>
      if device.user_id ≠ caller then (.error .forbidden, store)
      else (.ok (), store)

/-! Helper lemmas about the stable sort. -/

theorem mem_insertByKey {α K : Type} [LinearOrder K] (key : α → K) (x a : α) (l : List α) :
    a ∈ insertByKey key x l ↔ a = x ∨ a ∈ l := by
  induction l with
  | nil => simp [insertByKey]
  | cons y ys ih =>
      simp only [insertByKey]
      split
      · simp only [List.mem_cons, ih]
        tauto
      · simp only [List.mem_cons]

theorem pairwise_insertByKey {α K : Type} [LinearOrder K] (key : α → K) (x : α) (l : List α)
    (h : l.Pairwise (fun a b => key a ≤ key b)) :
    (insertByKey key x l).Pairwise (fun a b => key a ≤ key b) := by
  induction l with
  | nil => simp [insertByKey]
  | cons y ys ih =>
      rw [List.pairwise_cons] at h
      obtain ⟨hy, hys⟩ := h
      simp only [insertByKey]
      split
      · rename_i hlt
        rw [List.pairwise_cons]
        refine ⟨fun z hz => ?_, ih hys⟩
        rcases (mem_insertByKey key x z ys).mp hz with rfl | hz
        · exact le_of_lt hlt
        · exact hy z hz
      · rename_i hnlt
        rw [List.pairwise_cons]
        refine ⟨fun z hz => ?_, List.pairwise_cons.mpr ⟨hy, hys⟩⟩
        rcases List.mem_cons.mp hz with rfl | hz
        · exact le_of_not_lt hnlt
        · exact le_trans (le_of_not_lt hnlt) (hy z hz)

theorem mem_sortByKey {α K : Type} [LinearOrder K] (key : α → K) (a : α) (l : List α) :
    a ∈ sortByKey key l ↔ a ∈ l := by
  induction l with
  | nil => simp [sortByKey]
  | cons x xs ih => simp [sortByKey, mem_insertByKey, ih]

theorem sortByKey_pairwise {α K : Type} [LinearOrder K] (key : α → K) (l : List α) :
    (sortByKey key l).Pairwise (fun a b => key a ≤ key b) := by
  induction l with
  | nil => simp [sortByKey]
  | cons x xs ih => exact pairwise_insertByKey key x _ ih

theorem filter_insertByKey {α K : Type} [LinearOrder K] (key : α → K) (x : α) (l : List α)
    (k : K) :
    (insertByKey key x l).filter (fun a => decide (key a = k)) =
      if key x = k then x :: l.filter (fun a => decide (key a = k))
      else l.filter (fun a => decide (key a = k)) := by
  induction l with
  | nil =>
      simp only [insertByKey, List.filter]
      split <;> simp_all
  | cons y ys ih =>
      simp only [insertByKey]
      split
      · rename_i hlt
        rw [List.filter_cons, List.filter_cons]
        by_cases hy : key y = k
        · have hx : key x ≠ k := fun hx => absurd hy (ne_of_lt (hx ▸ hlt))
          simp [hy, hx, ih]
        · simp [hy, ih]
      · rw [List.filter_cons]
        by_cases hx : key x = k <;> simp [hx, List.filter_cons]

theorem filter_sortByKey {α K : Type} [LinearOrder K] (key : α → K) (l : List α) (k : K) :
    (sortByKey key l).filter (fun a => decide (key a = k)) =
      l.filter (fun a => decide (key a = k)) := by
  induction l with
  | nil => rfl
  | cons x xs ih =>
      simp only [sortByKey]
      rw [filter_insertByKey, List.filter_cons]
      by_cases hx : key x = k <;> simp [hx, ih]

/-! Helper lemmas about the distance function. -/

theorem haversine_eq (p q u v : ℚ) :
    haversine p q u v =
      (2 * Real.arcsin (Real.sqrt (Real.sin ((radians u - radians p) / 2) ^ 2 +
          Real.cos (radians p) * Real.cos (radians u) *
            Real.sin ((radians v - radians q) / 2) ^ 2))) * 6371 := rfl

theorem haversine_comm (p q u v : ℚ) : haversine p q u v = haversine u v p q := by
  have hsin : ∀ x y : ℝ, Real.sin ((x - y) / 2) ^ 2 = Real.sin ((y - x) / 2) ^ 2 := by
    intro x y
    have hx : (x - y) / 2 = -((y - x) / 2) := by ring
    rw [hx, Real.sin_neg, neg_sq]
  rw [haversine_eq, haversine_eq, hsin (radians u) (radians p),
    hsin (radians v) (radians q), mul_comm (Real.cos (radians p)) (Real.cos (radians u))]

theorem haversine_self (p q : ℚ) : haversine p q p q = 0 := by
  rw [haversine_eq]
  simp

theorem calculate_distance_self (p q : ℚ) (hp : p ≠ 0) (hq : q ≠ 0) :
    calculate_distance (some p) (some q) (some p) (some q) = ((0 : ℝ) : WithTop ℝ) := by
  simp only [calculate_distance]
  rw [if_neg (by tauto), haversine_self]

/-- C3: the distance function returns +infinity whenever any of its
four arguments is missing (None) or falsy — including the float 0.0,
the documented zero-as-falsy quirk — and otherwise returns the
haversine great-circle distance on a sphere of radius 6371 km
(`haversine`); being a Lean function of its arguments it is pure and
deterministic, and it is symmetric in the order of the two points. -/
theorem claim_C3_distance_falsy_inf_haversine_symmetric :
    (∀ lat1 lon1 lat2 lon2 : Option ℚ,
        (lat1 = none ∨ lat1 = some 0 ∨ lon1 = none ∨ lon1 = some 0 ∨
         lat2 = none ∨ lat2 = some 0 ∨ lon2 = none ∨ lon2 = some 0) →
        calculate_distance lat1 lon1 lat2 lon2 = ⊤) ∧
    (∀ a b c d : ℚ, a ≠ 0 → b ≠ 0 → c ≠ 0 → d ≠ 0 →
        calculate_distance (some a) (some b) (some c) (some d) =
          ((haversine a b c d : ℝ) : WithTop ℝ)) ∧
    (∀ lat1 lon1 lat2 lon2 : Option ℚ,
        calculate_distance lat1 lon1 lat2 lon2 = calculate_distance lat2 lon2 lat1 lon1) := by
  refine ⟨?_, ?_, ?_⟩
  · intro lat1 lon1 lat2 lon2 h
    cases lat1 <;> cases lon1 <;> cases lat2 <;> cases lon2 <;>
      simp_all [calculate_distance]
  · intro a b c d ha hb hc hd
    simp only [calculate_distance]
    rw [if_neg (by tauto)]
  · intro lat1 lon1 lat2 lon2
    cases lat1 <;> cases lon1 <;> cases lat2 <;> cases lon2 <;>
        (simp only [calculate_distance]; try rfl)
    rename_i a b c d
    by_cases h : a = 0 ∨ b = 0 ∨ c = 0 ∨ d = 0
    · rw [if_pos h, if_pos (by tauto)]
    · rw [if_neg h, if_neg (by tauto), haversine_comm]

/-- Witness for C3 at concrete inputs: a missing first argument yields
infinity, and four non-zero coordinates yield the haversine value. -/
theorem claim_C3_witness :
    calculate_distance none (some 1) (some 2) (some 3) = ⊤ ∧
    calculate_distance (some 10) (some 20) (some 10) (some 20) =
      ((haversine 10 20 10 20 : ℝ) : WithTop ℝ) :=
  ⟨claim_C3_distance_falsy_inf_haversine_symmetric.1 none (some 1) (some 2) (some 3)
      (Or.inl rfl),
   claim_C3_distance_falsy_inf_haversine_symmetric.2.1 10 20 10 20
      (by norm_num) (by norm_num) (by norm_num) (by norm_num)⟩

/-! Helper lemmas about the proximity pipeline. -/

theorem not_top_le_coe (x : ℝ) : ¬ ((⊤ : WithTop ℝ) ≤ (x : WithTop ℝ)) := by
  simp [top_le_iff]

theorem nearbyEntry_some {lat lng radius : ℚ} {d : Device} {e : Device × WithTop ℝ}
    (h : nearbyEntry lat lng radius d = some e) :
    e.1 = d ∧ (∃ a, d.latitude = some a ∧ a ≠ 0) ∧ (∃ b, d.longitude = some b ∧ b ≠ 0) ∧
      calculate_distance (some lat) (some lng) d.latitude d.longitude ≤
        ((radius : ℝ) : WithTop ℝ) ∧
      e.2 = pyRound2T (calculate_distance (some lat) (some lng) d.latitude d.longitude) := by
  unfold nearbyEntry at h
  split at h
  · rename_i dlat dlng heqa heqb
    split at h
    · rename_i hcond
      split at h
      · rename_i hdist
        injection h with h
        subst h
        rw [heqa, heqb]
        exact ⟨rfl, ⟨dlat, rfl, hcond.1⟩, ⟨dlng, rfl, hcond.2⟩, hdist, rfl⟩
      · exact absurd h (by simp)
    · exact absurd h (by simp)
  · exact absurd h (by simp)

theorem nearbyEntry_eq {lat lng radius : ℚ} {d : Device} {a b : ℚ}
    (hla : d.latitude = some a) (hlb : d.longitude = some b) (ha : a ≠ 0) (hb : b ≠ 0)
    (hd : calculate_distance (some lat) (some lng) (some a) (some b) ≤
      ((radius : ℝ) : WithTop ℝ)) :
    nearbyEntry lat lng radius d =
      some (d, pyRound2T (calculate_distance (some lat) (some lng) (some a) (some b))) := by
  simp only [nearbyEntry, hla, hlb]
  rw [if_pos ⟨ha, hb⟩, if_pos hd]

theorem nearbyEntry_none {lat lng radius : ℚ} {d : Device}
    (h : ¬ calculate_distance (some lat) (some lng) d.latitude d.longitude ≤
        ((radius : ℝ) : WithTop ℝ)) :
    nearbyEntry lat lng radius d = none := by
  unfold nearbyEntry
  split
  · rename_i dlat dlng heqa heqb
    rw [heqa, heqb] at h
    by_cases hc : dlat ≠ 0 ∧ dlng ≠ 0
    · rw [if_pos hc, if_neg h]
    · rw [if_neg hc]
  · rfl

theorem mem_collectNearby {lat lng radius : ℚ} {devices : List Device}
    {e : Device × WithTop ℝ} :
    e ∈ collectNearby lat lng radius devices ↔
      ∃ d, d ∈ devices ∧ nearbyEntry lat lng radius d = some e := by
  unfold collectNearby
  exact List.mem_filterMap

theorem mem_nearby_sorted {lat lng radius : ℚ} {devices : List Device}
    {e : Device × WithTop ℝ} :
    e ∈ sortByKey (fun x => x.2) (collectNearby lat lng radius devices) ↔
      ∃ d, d ∈ devices ∧ nearbyEntry lat lng radius d = some e := by
  rw [mem_sortByKey]
  exact mem_collectNearby

theorem nearby_sorted_coords {lat lng radius : ℚ} {devices : List Device}
    (e : Device × WithTop ℝ)
    (he : e ∈ sortByKey (fun x => x.2) (collectNearby lat lng radius devices)) :
    e.1.latitude ≠ none ∧ e.1.longitude ≠ none ∧
      calculate_distance (some lat) (some lng) e.1.latitude e.1.longitude ≤
        ((radius : ℝ) : WithTop ℝ) := by
  obtain ⟨d, _, heq⟩ := mem_nearby_sorted.mp he
  obtain ⟨h1, ⟨a, hla, _⟩, ⟨b, hlb, _⟩, hdist, _⟩ := nearbyEntry_some heq
  subst h1
  exact ⟨by rw [hla]; simp, by rw [hlb]; simp, hdist⟩

theorem dist_le_nonfalsy {lat lng : ℚ} {la lb : Option ℚ} {x : ℝ}
    (h : calculate_distance (some lat) (some lng) la lb ≤ (x : WithTop ℝ)) :
    ∃ a b, la = some a ∧ lb = some b ∧ a ≠ 0 ∧ b ≠ 0 := by
  cases la with
  | none =>
      cases lb <;> exact absurd h (by simp only [calculate_distance]; exact not_top_le_coe x)
  | some a =>
      cases lb with
      | none => exact absurd h (by simp only [calculate_distance]; exact not_top_le_coe x)
      | some b =>
          by_cases hz : lat = 0 ∨ lng = 0 ∨ a = 0 ∨ b = 0
          · rw [show calculate_distance (some lat) (some lng) (some a) (some b) = ⊤ by
              simp only [calculate_distance]; rw [if_pos hz]] at h
            exact absurd h (not_top_le_coe x)
          · push_neg at hz
            exact ⟨a, b, rfl, rfl, hz.2.2.1, hz.2.2.2⟩

theorem nearby_sorted_mem_iff {lat lng radius : ℚ} {devices : List Device} {d : Device}
    (hd : d ∈ devices) :
    (∃ k, (d, k) ∈ sortByKey (fun x => x.2) (collectNearby lat lng radius devices)) ↔
      calculate_distance (some lat) (some lng) d.latitude d.longitude ≤
        ((radius : ℝ) : WithTop ℝ) := by
  constructor
  · rintro ⟨k, hk⟩
    obtain ⟨d', _, heq⟩ := mem_nearby_sorted.mp hk
    obtain ⟨h1, _, _, hdist, _⟩ := nearbyEntry_some heq
    rw [show d' = d from h1.symm] at hdist
    exact hdist
  · intro hdist
    obtain ⟨a, b, hla, hlb, ha, hb⟩ := dist_le_nonfalsy hdist
    rw [hla, hlb] at hdist
    exact ⟨pyRound2T (calculate_distance (some lat) (some lng) (some a) (some b)),
      mem_nearby_sorted.mpr ⟨d, hd, nearbyEntry_eq hla hlb ha hb hdist⟩⟩

theorem nearby_sorted_eq_nil {lat lng radius : ℚ} {devices : List Device}
    (h : ∀ d ∈ devices, ¬ calculate_distance (some lat) (some lng) d.latitude d.longitude ≤
        ((radius : ℝ) : WithTop ℝ)) :
    sortByKey (fun x => x.2) (collectNearby lat lng radius devices) = [] := by
  have hnil : collectNearby lat lng radius devices = [] := by
    unfold collectNearby
    rw [List.filterMap_eq_nil_iff]
    intro d hd
    exact nearbyEntry_none (h d hd)
  rw [hnil]
  rfl

theorem mem_find_by_user_id {store : List Device} {uid : ℕ} {d : Device} :
    d ∈ find_by_user_id store uid ↔ d ∈ store ∧ d.user_id = uid := by
  unfold find_by_user_id
  rw [List.mem_filter]
  simp

theorem statusFilter_none (devices : List Device) : statusFilter none devices = devices := rfl

theorem mem_statusFilter_sub {s : Option String} {devices : List Device} {d : Device}
    (h : d ∈ statusFilter s devices) : d ∈ devices := by
  unfold statusFilter at h
  split at h
  · split at h
    · exact (List.mem_filter.mp h).1
    · exact h
  · exact h

theorem get_nearby_devices_ok (store : List Device) (caller : ℕ) (lat lng radius : ℚ)
    (statusArg : Option String) :
    get_nearby_devices store caller
        ⟨some (.qnum lat), some (.qnum lng), some (.qnum radius), statusArg⟩ =
      .ok (sortByKey (fun e => e.2) (collectNearby lat lng radius
        (statusFilter statusArg (find_by_user_id store caller)))) := rfl

theorem search_devices_ok (textSearch : String → ℕ → List Device) (store : List Device)
    (caller : ℕ) (lat lng radius : ℚ) :
    search_devices textSearch store caller
        ⟨"", some (.qnum lat), some (.qnum lng), some (.qnum radius)⟩ =
      .ok (.locResults (sortByKey (fun e => e.2) (collectNearby lat lng radius
        (find_by_user_id store caller)))) := rfl

/-- Concrete device used by witnesses: owner 7, located at latitude 10
and longitude 20 (fields: id, user_id, name, description, category,
status, location, latitude, longitude, created_at, updated_at). -/
def devA : Device := ⟨1, 7, "phone", "", "", "lost", "", some 10, some 20, 0, 0⟩

/-- Concrete location-incomplete device (no coordinates) used by
witnesses. -/
def devB : Device := ⟨2, 7, "tablet", "", "", "lost", "", none, none, 0, 0⟩

/-- C1: in the proximity searches (/devices/nearby with no status
filter, and the location branch of /devices/search), a call with
numeric arguments never errors; every returned entry has both
coordinates present; a device missing either coordinate is silently
discarded (never in the result, with no error raised); and for every
device of the caller with both coordinates present, its distance under
`calculate_distance` decides membership against the radius. -/
theorem claim_C1_location_incomplete_silently_discarded :
    ∀ (store : List Device) (caller : ℕ) (lat lng radius : ℚ)
      (textSearch : String → ℕ → List Device),
      (∃ out, get_nearby_devices store caller
          ⟨some (.qnum lat), some (.qnum lng), some (.qnum radius), none⟩ = .ok out) ∧
      (∀ out, get_nearby_devices store caller
          ⟨some (.qnum lat), some (.qnum lng), some (.qnum radius), none⟩ = .ok out →
        (∀ e ∈ out, e.1.latitude ≠ none ∧ e.1.longitude ≠ none) ∧
        (∀ d : Device, (d.latitude = none ∨ d.longitude = none) → ∀ k, (d, k) ∉ out) ∧
        (∀ d ∈ store, d.user_id = caller → d.latitude.isSome → d.longitude.isSome →
          ((∃ k, (d, k) ∈ out) ↔
            calculate_distance (some lat) (some lng) d.latitude d.longitude ≤
              ((radius : ℝ) : WithTop ℝ)))) ∧
      (∃ out, search_devices textSearch store caller
          ⟨"", some (.qnum lat), some (.qnum lng), some (.qnum radius)⟩ =
          .ok (.locResults out)) ∧
      (∀ out, search_devices textSearch store caller
          ⟨"", some (.qnum lat), some (.qnum lng), some (.qnum radius)⟩ =
          .ok (.locResults out) →
        (∀ e ∈ out, e.1.latitude ≠ none ∧ e.1.longitude ≠ none) ∧
        (∀ d : Device, (d.latitude = none ∨ d.longitude = none) → ∀ k, (d, k) ∉ out) ∧
        (∀ d ∈ store, d.user_id = caller → d.latitude.isSome → d.longitude.isSome →
          ((∃ k, (d, k) ∈ out) ↔
            calculate_distance (some lat) (some lng) d.latitude d.longitude ≤
              ((radius : ℝ) : WithTop ℝ)))) := by
  intro store caller lat lng radius textSearch
  refine ⟨⟨_, get_nearby_devices_ok store caller lat lng radius none⟩, ?_,
    ⟨_, search_devices_ok textSearch store caller lat lng radius⟩, ?_⟩
  · intro out h
    rw [get_nearby_devices_ok] at h
    injection h with h
    subst h
    rw [statusFilter_none]
    refine ⟨?_, ?_, ?_⟩
    · intro e he
      exact ⟨(nearby_sorted_coords e he).1, (nearby_sorted_coords e he).2.1⟩
    · intro d hcoord k hk
      rcases hcoord with hc | hc
      · exact (nearby_sorted_coords (d, k) hk).1 hc
      · exact (nearby_sorted_coords (d, k) hk).2.1 hc
    · intro d hd huser _ _
      exact nearby_sorted_mem_iff (mem_find_by_user_id.mpr ⟨hd, huser⟩)
  · intro out h
    rw [search_devices_ok] at h
    injection h with h
    injection h with h
    subst h
    refine ⟨?_, ?_, ?_⟩
    · intro e he
      exact ⟨(nearby_sorted_coords e he).1, (nearby_sorted_coords e he).2.1⟩
    · intro d hcoord k hk
      rcases hcoord with hc | hc
      · exact (nearby_sorted_coords (d, k) hk).1 hc
      · exact (nearby_sorted_coords (d, k) hk).2.1 hc
    · intro d hd huser _ _
      exact nearby_sorted_mem_iff (mem_find_by_user_id.mpr ⟨hd, huser⟩)

/-- Witness for C1 at a concrete store: the caller's device at (10,20)
is within radius 5 of the query point (10,20), so it is a member of the
nearby result list. -/
theorem claim_C1_witness :
    ∃ k, (devA, k) ∈ sortByKey (fun e => e.2)
      (collectNearby 10 20 5 (statusFilter none (find_by_user_id [devA] 7))) := by
  have h := (claim_C1_location_incomplete_silently_discarded [devA] 7 10 20 5
    (fun _ _ => [])).2.1 _ (get_nearby_devices_ok [devA] 7 10 20 5 none)
  rw [statusFilter_none] at h ⊢
  refine (h.2.2 devA (by simp) rfl rfl rfl).mpr ?_
  rw [show devA.latitude = some 10 from rfl, show devA.longitude = some 20 from rfl,
    calculate_distance_self 10 20 (by norm_num) (by norm_num)]
  exact WithTop.coe_le_coe.mpr (by norm_num)

/-- C4: either proximity search includes exactly the candidate devices
whose computed distance is at most the radius, with an inclusive
boundary (the `distance <= radius` test): every returned entry has
computed distance at most the radius (soundness), every candidate
device — a member of the status- and owner-filtered store — with
computed distance at most the radius is returned (completeness, so a
device at distance exactly the radius is included), and when no device
of the caller qualifies the result is the empty 200 list, not an
error. -/
theorem claim_C4_inclusive_radius_bound_empty_ok :
    ∀ (store : List Device) (caller : ℕ) (lat lng radius : ℚ) (statusArg : Option String)
      (textSearch : String → ℕ → List Device),
      (∀ out, get_nearby_devices store caller
          ⟨some (.qnum lat), some (.qnum lng), some (.qnum radius), statusArg⟩ = .ok out →
        ∀ e ∈ out,
          calculate_distance (some lat) (some lng) e.1.latitude e.1.longitude ≤
            ((radius : ℝ) : WithTop ℝ)) ∧
      ((∀ d ∈ store, d.user_id = caller →
          ¬ calculate_distance (some lat) (some lng) d.latitude d.longitude ≤
            ((radius : ℝ) : WithTop ℝ)) →
        get_nearby_devices store caller
          ⟨some (.qnum lat), some (.qnum lng), some (.qnum radius), statusArg⟩ = .ok []) ∧
      (∀ out, search_devices textSearch store caller
          ⟨"", some (.qnum lat), some (.qnum lng), some (.qnum radius)⟩ =
            .ok (.locResults out) →
        ∀ e ∈ out,
          calculate_distance (some lat) (some lng) e.1.latitude e.1.longitude ≤
            ((radius : ℝ) : WithTop ℝ)) ∧
      ((∀ d ∈ store, d.user_id = caller →
          ¬ calculate_distance (some lat) (some lng) d.latitude d.longitude ≤
            ((radius : ℝ) : WithTop ℝ)) →
        search_devices textSearch store caller
          ⟨"", some (.qnum lat), some (.qnum lng), some (.qnum radius)⟩ =
          .ok (.locResults [])) ∧
      (∀ out, get_nearby_devices store caller
          ⟨some (.qnum lat), some (.qnum lng), some (.qnum radius), statusArg⟩ = .ok out →
        ∀ d ∈ statusFilter statusArg (find_by_user_id store caller),
          calculate_distance (some lat) (some lng) d.latitude d.longitude ≤
            ((radius : ℝ) : WithTop ℝ) → ∃ k, (d, k) ∈ out) ∧
      (∀ out, search_devices textSearch store caller
          ⟨"", some (.qnum lat), some (.qnum lng), some (.qnum radius)⟩ =
            .ok (.locResults out) →
        ∀ d ∈ find_by_user_id store caller,
          calculate_distance (some lat) (some lng) d.latitude d.longitude ≤
            ((radius : ℝ) : WithTop ℝ) → ∃ k, (d, k) ∈ out) := by
  intro store caller lat lng radius statusArg textSearch
  refine ⟨?_, ?_, ?_, ?_, ?_, ?_⟩
  · intro out h e he
    rw [get_nearby_devices_ok] at h
    injection h with h
    subst h
    exact (nearby_sorted_coords e he).2.2
  · intro h
    rw [get_nearby_devices_ok, nearby_sorted_eq_nil]
    intro d hd
    have hm := mem_find_by_user_id.mp (mem_statusFilter_sub hd)
    exact h d hm.1 hm.2
  · intro out h e he
    rw [search_devices_ok] at h
    injection h with h
    injection h with h
    subst h
    exact (nearby_sorted_coords e he).2.2
  · intro h
    rw [search_devices_ok, nearby_sorted_eq_nil]
    intro d hd
    have hm := mem_find_by_user_id.mp hd
    exact h d hm.1 hm.2
  · intro out h d hd hdist
    rw [get_nearby_devices_ok] at h
    injection h with h
    subst h
    exact (nearby_sorted_mem_iff hd).mpr hdist
  · intro out h d hd hdist
    rw [search_devices_ok] at h
    injection h with h
    injection h with h
    subst h
    exact (nearby_sorted_mem_iff hd).mpr hdist

/-- Witness for C4: with radius 0, the caller's device at exactly the
query point has distance exactly the radius and is included (inclusive
boundary — a strict filter would drop it); and a store holding only a
coordinate-less device qualifies nobody, so the nearby route returns
the empty 200 result. -/
theorem claim_C4_witness :
    (∃ k, (devA, k) ∈ sortByKey (fun e => e.2)
        (collectNearby 10 20 0 (statusFilter none (find_by_user_id [devA] 7)))) ∧
    get_nearby_devices [devB] 7
      ⟨some (.qnum 10), some (.qnum 20), some (.qnum 5), none⟩ = .ok [] := by
  constructor
  · have h := (claim_C4_inclusive_radius_bound_empty_ok [devA] 7 10 20 0 none
      (fun _ _ => [])).2.2.2.2.1 _ (get_nearby_devices_ok [devA] 7 10 20 0 none)
    refine h devA ?_ ?_
    · rw [statusFilter_none]
      exact mem_find_by_user_id.mpr ⟨by simp, rfl⟩
    · rw [show devA.latitude = some 10 from rfl, show devA.longitude = some 20 from rfl,
        calculate_distance_self 10 20 (by norm_num) (by norm_num)]
      exact WithTop.coe_le_coe.mpr (by norm_num)
  · apply (claim_C4_inclusive_radius_bound_empty_ok [devB] 7 10 20 5 none
      (fun _ _ => [])).2.1
    intro d hd _
    rw [show d = devB by simpa using hd]
    rw [show calculate_distance (some 10) (some 20) devB.latitude devB.longitude = ⊤ from rfl]
    exact not_top_le_coe _

/-- C5: a successful nearby result is pairwise non-decreasing in the
stored 2-decimal-rounded distance, and for every key value the entries
carrying it appear exactly as in the pre-sort candidate list, which is
in store iteration order — the sort is stable. -/
theorem claim_C5_sorted_by_rounded_distance_stable :
    ∀ (store : List Device) (caller : ℕ) (lat lng radius : ℚ) (statusArg : Option String)
      (out : List (Device × WithTop ℝ)),
      get_nearby_devices store caller
        ⟨some (.qnum lat), some (.qnum lng), some (.qnum radius), statusArg⟩ = .ok out →
      out.Pairwise (fun a b => a.2 ≤ b.2) ∧
      (∀ k : WithTop ℝ, out.filter (fun e => decide (e.2 = k)) =
        (collectNearby lat lng radius
          (statusFilter statusArg (find_by_user_id store caller))).filter
          (fun e => decide (e.2 = k))) := by
  intro store caller lat lng radius statusArg out h
  rw [get_nearby_devices_ok] at h
  injection h with h
  subst h
  exact ⟨sortByKey_pairwise (fun (e : Device × WithTop ℝ) => e.2) _,
    fun k => filter_sortByKey (fun (e : Device × WithTop ℝ) => e.2) _ k⟩

/-- Witness for C5 at the empty store, whose nearby result is the empty
list. -/
theorem claim_C5_witness :
    List.Pairwise (fun (a b : Device × WithTop ℝ) => a.2 ≤ b.2)
        ([] : List (Device × WithTop ℝ)) ∧
    (∀ k : WithTop ℝ,
      ([] : List (Device × WithTop ℝ)).filter
          (fun (e : Device × WithTop ℝ) => decide (e.2 = k)) =
        (collectNearby 10 20 5 (statusFilter none (find_by_user_id [] 7))).filter
          (fun (e : Device × WithTop ℝ) => decide (e.2 = k))) :=
  claim_C5_sorted_by_rounded_distance_stable [] 7 10 20 5 none [] rfl

/-- C10: a status filter value outside the enum (including the empty
string, which is falsy) is silently ignored by the nearby route: the
call behaves exactly as if no status filter were given, returning
devices of every status with no error. -/
theorem claim_C10_invalid_status_filter_silently_ignored :
    ∀ (store : List Device) (caller : ℕ) (la lo r : Option QVal) (s : String),
      s ≠ "lost" → s ≠ "found" →
      get_nearby_devices store caller ⟨la, lo, r, some s⟩ =
        get_nearby_devices store caller ⟨la, lo, r, none⟩ := by
  intro store caller la lo r s h1 h2
  have hs : ∀ devices : List Device, statusFilter (some s) devices = devices := by
    intro devices
    simp only [statusFilter]
    rw [if_neg]
    tauto
  simp only [get_nearby_devices, hs, statusFilter_none]

/-- Witness for C10: the filter value "stolen" leaves the nearby result
identical to the unfiltered call. -/
theorem claim_C10_witness :
    get_nearby_devices [devA] 7
        ⟨some (.qnum 10), some (.qnum 20), some (.qnum 5), some "stolen"⟩ =
      get_nearby_devices [devA] 7
        ⟨some (.qnum 10), some (.qnum 20), some (.qnum 5), none⟩ :=
  claim_C10_invalid_status_filter_silently_ignored [devA] 7 _ _ _ "stolen"
    (by decide) (by decide)

/-- C2 counterexample: the radius "-3" parses to a negative — hence not
positive — float, yet the nearby route accepts it and returns the empty
200 result instead of failing with InvalidArgument: the code never
checks the parsed radius for positivity. -/
theorem claim_C2_counterexample_negative_radius_accepted :
    get_nearby_devices [] 7
      ⟨some (.qnum 10), some (.qnum 20), some (.qnum (-3)), none⟩ = .ok [] := rfl

/-- C2 (amended): the radius must merely parse as a float — positivity
is never checked — while missing or empty latitude/longitude, and
non-numeric latitude/longitude/radius, fail with an InvalidArgument
(400) error in both proximity routes. -/
theorem claim_C2_amended_parse_failures_reported :
    (∀ (store : List Device) (caller : ℕ) (la lo r : Option QVal) (s : Option String),
        (la = none ∨ lo = none ∨
          (∃ v, la = some v ∧ qtruthy v = false) ∨
          (∃ v, lo = some v ∧ qtruthy v = false)) →
        get_nearby_devices store caller ⟨la, lo, r, s⟩ = .error .latLngRequired) ∧
    (∀ (store : List Device) (caller : ℕ) (la lo : QVal) (r : Option QVal)
        (s : Option String),
        qtruthy la = true → qtruthy lo = true →
        (qparse la = none ∨ qparse lo = none ∨ (∃ v, r = some v ∧ qparse v = none)) →
        get_nearby_devices store caller ⟨some la, some lo, r, s⟩ = .error .invalidCoords) ∧
    (∀ (textSearch : String → ℕ → List Device) (store : List Device) (caller : ℕ)
        (qs : String) (la lo r : Option QVal),
        pystrip qs = "" →
        (la = none ∨ lo = none ∨
          (∃ v, la = some v ∧ qtruthy v = false) ∨
          (∃ v, lo = some v ∧ qtruthy v = false)) →
        search_devices textSearch store caller ⟨qs, la, lo, r⟩ = .error .searchRequired) ∧
    (∀ (textSearch : String → ℕ → List Device) (store : List Device) (caller : ℕ)
        (qs : String) (la lo : QVal) (r : Option QVal),
        pystrip qs = "" → qtruthy la = true → qtruthy lo = true →
        (qparse la = none ∨ qparse lo = none ∨ (∃ v, r = some v ∧ qparse v = none)) →
        search_devices textSearch store caller ⟨qs, some la, some lo, r⟩ =
          .error .invalidCoords) ∧
    httpStatus .latLngRequired = 400 ∧ httpStatus .invalidCoords = 400 ∧
    httpStatus .searchRequired = 400 := by
  refine ⟨?_, ?_, ?_, ?_, rfl, rfl, rfl⟩
  · intro store caller la lo r s h
    cases la with
    | none => cases lo <;> rfl
    | some v =>
        cases lo with
        | none => rfl
        | some w =>
            have hf : qtruthy v = false ∨ qtruthy w = false := by
              rcases h with h | h | ⟨u, hu, hf⟩ | ⟨u, hu, hf⟩
              · exact absurd h (by simp)
              · exact absurd h (by simp)
              · exact Or.inl (by injection hu with hu; rw [hu]; exact hf)
              · exact Or.inr (by injection hu with hu; rw [hu]; exact hf)
            have hneg : ¬ (qtruthy v = true ∧ qtruthy w = true) := by
              rcases hf with hf | hf <;> rw [hf] <;> simp
            simp only [get_nearby_devices]
            rw [if_neg hneg]
  · intro store caller la lo r s htla htlo h
    simp only [get_nearby_devices]
    rw [if_pos ⟨htla, htlo⟩]
    rcases h with hla | hlo | ⟨v, rfl, hv⟩
    · rw [hla]
    · cases hqla : qparse la with
      | none => rfl
      | some x => rw [hlo]
    · cases hqla : qparse la with
      | none => rfl
      | some x =>
          cases hqlo : qparse lo with
          | none => rfl
          | some y =>
              dsimp only
              rw [hv]
  · intro textSearch store caller qs la lo r hq h
    simp only [search_devices, hq]
    rw [if_neg (by simp)]
    cases la with
    | none => cases lo <;> rfl
    | some v =>
        cases lo with
        | none => rfl
        | some w =>
            have hf : qtruthy v = false ∨ qtruthy w = false := by
              rcases h with h | h | ⟨u, hu, hf⟩ | ⟨u, hu, hf⟩
              · exact absurd h (by simp)
              · exact absurd h (by simp)
              · exact Or.inl (by injection hu with hu; rw [hu]; exact hf)
              · exact Or.inr (by injection hu with hu; rw [hu]; exact hf)
            have hneg : ¬ (qtruthy v = true ∧ qtruthy w = true) := by
              rcases hf with hf | hf <;> rw [hf] <;> simp
            change (if qtruthy v = true ∧ qtruthy w = true then _ else _) = _
            rw [if_neg hneg]
  · intro textSearch store caller qs la lo r hq htla htlo h
    simp only [search_devices, hq]
    rw [if_neg (by simp)]
    change (if qtruthy la = true ∧ qtruthy lo = true then _ else _) = _
    rw [if_pos ⟨htla, htlo⟩]
    rcases h with hla | hlo | ⟨v, rfl, hv⟩
    · rw [hla]
    · cases hqla : qparse la with
      | none => rfl
      | some x => rw [hlo]
    · cases hqla : qparse la with
      | none => rfl
      | some x =>
          cases hqlo : qparse lo with
          | none => rfl
          | some y =>
              dsimp only
              rw [hv]

/-- Witness for C2 (amended) at concrete error inputs: missing
latitude, a non-numeric latitude, and missing search coordinates. -/
theorem claim_C2_witness :
    get_nearby_devices [] 7 ⟨none, some (.qnum 1), none, none⟩ =
      .error .latLngRequired ∧
    get_nearby_devices [] 7 ⟨some .qbad, some (.qnum 1), none, none⟩ =
      .error .invalidCoords ∧
    search_devices (fun _ _ => []) [] 7 ⟨"", none, some (.qnum 1), none⟩ =
      .error .searchRequired :=
  ⟨claim_C2_amended_parse_failures_reported.1 [] 7 none (some (.qnum 1)) none none
      (Or.inl rfl),
   claim_C2_amended_parse_failures_reported.2.1 [] 7 .qbad (.qnum 1) none none rfl rfl
      (Or.inl rfl),
   claim_C2_amended_parse_failures_reported.2.2.1 (fun _ _ => []) [] 7 ""
      none (some (.qnum 1)) none rfl (Or.inl rfl)⟩

/-! Helper lemmas about the update handler. -/

theorem except_bind_ok {α β : Type} {a : Except ApiErr α} {f : α → Except ApiErr β} {c : β}
    (h : a.bind f = .ok c) : ∃ b, a = .ok b ∧ f b = .ok c := by
  cases a with
  | error e => exact absurd h (by simp [Except.bind])
  | ok b => exact ⟨b, rfl, h⟩

theorem except_bind_error {α β : Type} {a : Except ApiErr α} {f : α → Except ApiErr β}
    {e : ApiErr} (h : a.bind f = .error e) :
    a = .error e ∨ ∃ b, a = .ok b ∧ f b = .error e := by
  cases a with
  | error e' => exact Or.inl (by simpa [Except.bind] using h)
  | ok b => exact Or.inr ⟨b, rfl, h⟩

/-- A payload supplying at least one invalid field per the update
validation rules: empty stripped name, status outside the enum, or an
out-of-range or unparsable coordinate. -/
def invalidPayload (p : UpdatePayload) : Prop :=
  (∃ s, p.name = some s ∧ pystrip s = "") ∨
  (∃ s, p.status = some s ∧ s ≠ "lost" ∧ s ≠ "found") ∨
  (∃ x, p.latitude = some (.num x) ∧ (x < -90 ∨ 90 < x)) ∨
  p.latitude = some .badStr ∨
  (∃ x, p.longitude = some (.num x) ∧ (x < -180 ∨ 180 < x)) ∨
  p.longitude = some .badStr

theorem applyName_ok {p : UpdatePayload} {d d' : Device} (h : applyName p d = .ok d') :
    ∀ s, p.name = some s → pystrip s ≠ "" := by
  intro s hs heq
  simp [applyName, hs, heq] at h

theorem applyStatus_ok {p : UpdatePayload} {d d' : Device} (h : applyStatus p d = .ok d') :
    ∀ s, p.status = some s → s = "lost" ∨ s = "found" := by
  intro s hs
  by_contra hc
  simp only [applyStatus, hs] at h
  rw [if_neg hc] at h
  exact absurd h (by simp)

theorem applyLatitude_ok {p : UpdatePayload} {d d' : Device}
    (h : applyLatitude p d = .ok d') :
    (∀ x, p.latitude = some (.num x) → -90 ≤ x ∧ x ≤ 90) ∧ p.latitude ≠ some .badStr := by
  constructor
  · intro x hx
    by_contra hc
    simp only [applyLatitude, hx] at h
    rw [if_neg hc] at h
    exact absurd h (by simp)
  · intro hbad
    simp [applyLatitude, hbad] at h

theorem applyLongitude_ok {p : UpdatePayload} {d d' : Device}
    (h : applyLongitude p d = .ok d') :
    (∀ x, p.longitude = some (.num x) → -180 ≤ x ∧ x ≤ 180) ∧
      p.longitude ≠ some .badStr := by
  constructor
  · intro x hx
    by_contra hc
    simp only [applyLongitude, hx] at h
    rw [if_neg hc] at h
    exact absurd h (by simp)
  · intro hbad
    simp [applyLongitude, hbad] at h

theorem update_fields_ok_valid {d d' : Device} {p : UpdatePayload}
    (h : update_fields d p = .ok d') : ¬ invalidPayload p := by
  unfold update_fields at h
  obtain ⟨d1, h1, h⟩ := except_bind_ok h
  obtain ⟨d6, h6, h⟩ := except_bind_ok h
  obtain ⟨d7, h7, h8⟩ := except_bind_ok h
  intro hinv
  rcases hinv with ⟨s, hs, he⟩ | ⟨s, hs, hn1, hn2⟩ | ⟨x, hx, hr⟩ | hbad | ⟨x, hx, hr⟩ | hbad
  · exact applyName_ok h1 s hs he
  · rcases applyStatus_ok h6 s hs with h' | h'
    · exact hn1 h'
    · exact hn2 h'
  · rcases hr with hr | hr
    · exact absurd ((applyLatitude_ok h7).1 x hx).1 (not_le.mpr hr)
    · exact absurd ((applyLatitude_ok h7).1 x hx).2 (not_le.mpr hr)
  · exact (applyLatitude_ok h7).2 hbad
  · rcases hr with hr | hr
    · exact absurd ((applyLongitude_ok h8).1 x hx).1 (not_le.mpr hr)
    · exact absurd ((applyLongitude_ok h8).1 x hx).2 (not_le.mpr hr)
  · exact (applyLongitude_ok h8).2 hbad

theorem applyName_error {p : UpdatePayload} {d : Device} {e : ApiErr}
    (h : applyName p d = .error e) : e = .emptyName := by
  unfold applyName at h
  split at h
  · exact absurd h (by simp)
  · split at h
    · injection h with h
      exact h.symm
    · exact absurd h (by simp)

theorem applyStatus_error {p : UpdatePayload} {d : Device} {e : ApiErr}
    (h : applyStatus p d = .error e) : e = .badStatus := by
  unfold applyStatus at h
  split at h
  · exact absurd h (by simp)
  · split at h
    · exact absurd h (by simp)
    · injection h with h
      exact h.symm

theorem applyLatitude_error {p : UpdatePayload} {d : Device} {e : ApiErr}
    (h : applyLatitude p d = .error e) : e = .latRange ∨ e = .latFormat := by
  unfold applyLatitude at h
  split at h
  · exact absurd h (by simp)
  · exact absurd h (by simp)
  · exact absurd h (by simp)
  · split at h
    · exact absurd h (by simp)
    · injection h with h
      exact Or.inl h.symm
  · injection h with h
    exact Or.inr h.symm

theorem applyLongitude_error {p : UpdatePayload} {d : Device} {e : ApiErr}
    (h : applyLongitude p d = .error e) : e = .lngRange ∨ e = .lngFormat := by
  unfold applyLongitude at h
  split at h
  · exact absurd h (by simp)
  · exact absurd h (by simp)
  · exact absurd h (by simp)
  · split at h
    · exact absurd h (by simp)
    · injection h with h
      exact Or.inl h.symm
  · injection h with h
    exact Or.inr h.symm

theorem update_fields_error_400 {d : Device} {p : UpdatePayload} {e : ApiErr}
    (h : update_fields d p = .error e) : httpStatus e = 400 := by
  unfold update_fields at h
  rcases except_bind_error h with h | ⟨d1, _, h⟩
  · rw [applyName_error h]
    rfl
  · rcases except_bind_error h with h | ⟨d6, _, h⟩
    · rw [applyStatus_error h]
      rfl
    · rcases except_bind_error h with h | ⟨d7, _, h⟩
      · rcases applyLatitude_error h with h | h <;> rw [h] <;> rfl
      · rcases applyLongitude_error h with h | h <;> rw [h] <;> rfl

theorem update_fields_invalid_error {d : Device} {p : UpdatePayload}
    (hinv : invalidPayload p) : ∃ e, update_fields d p = .error e := by
  cases hres : update_fields d p with
  | ok d' => exact absurd hinv (update_fields_ok_valid hres)
  | error e => exact ⟨e, rfl⟩

theorem invalidPayload_not_empty {p : UpdatePayload} (h : invalidPayload p) :
    p.isEmptyP = false := by
  rcases h with ⟨s, hs, _⟩ | ⟨s, hs, _⟩ | ⟨x, hx, _⟩ | hx | ⟨x, hx, _⟩ | hx <;>
    simp_all [UpdatePayload.isEmptyP]

/-- C6: if any supplied field of a partial update is invalid (empty
stripped name, status outside the enum, out-of-range or unparsable
coordinate), the update aborts with a 400 InvalidArgument error and the
store — hence every field of the stored device — is unchanged, with no
partial commit; and `updated_at` is set to the request time exactly on
a successful commit. -/
theorem claim_C6_update_atomic_on_invalid_field :
    (∀ (store : List Device) (caller device_id : ℕ) (p : UpdatePayload) (now : ℕ)
        (d : Device),
        find_by_id store device_id = some d → d.user_id = caller → invalidPayload p →
        (∃ e, (update_device store caller device_id p now).1 = .error e ∧
          httpStatus e = 400) ∧
        (update_device store caller device_id p now).2 = store) ∧
    (∀ (store : List Device) (caller device_id : ℕ) (p : UpdatePayload) (now : ℕ)
        (d' : Device),
        (update_device store caller device_id p now).1 = .ok d' →
        d'.updated_at = now) := by
  constructor
  · intro store caller device_id p now d hfind huser hinv
    obtain ⟨e, he⟩ := update_fields_invalid_error (d := d) hinv
    have hne : p.isEmptyP = false := invalidPayload_not_empty hinv
    simp only [update_device, hfind, he]
    rw [if_neg (fun hc => hc huser), if_neg (by simp [hne])]
    exact ⟨⟨e, rfl, update_fields_error_400 he⟩, rfl⟩
  · intro store caller device_id p now d' h
    unfold update_device at h
    split at h
    · exact absurd h (by simp)
    · split at h
      · exact absurd h (by simp)
      · split at h
        · exact absurd h (by simp)
        · split at h
          · exact absurd h (by simp)
          · injection h with h
            rw [← h]

/-- Payload carrying only an invalid status value, used by witnesses. -/
def badPayload : UpdatePayload :=
  ⟨none, none, none, none, none, none, some "stolen", none, none⟩

/-- Witness for C6: updating devA with the invalid status "stolen"
fails with a 400 error and leaves the one-device store unchanged. -/
theorem claim_C6_witness :
    (∃ e, (update_device [devA] 7 1 badPayload 99).1 = .error e ∧ httpStatus e = 400) ∧
    (update_device [devA] 7 1 badPayload 99).2 = [devA] :=
  claim_C6_update_atomic_on_invalid_field.1 [devA] 7 1 badPayload 99 devA rfl rfl
    (Or.inr (Or.inl ⟨"stolen", rfl, by decide, by decide⟩))

/-- C7: for update, status-update, delete and both tracking operations,
a missing device id fails with NotFound (404) while an existing device
owned by someone else fails with Forbidden (403): existence is checked
before ownership, so a non-owner of an existing device always observes
403, never 404. -/
theorem claim_C7_existence_before_ownership :
    ∀ (store : List Device) (caller device_id : ℕ) (p : UpdatePayload)
      (s : Option String) (now : ℕ),
      (find_by_id store device_id = none →
        (update_device store caller device_id p now).1 = .error .notFound ∧
        (update_device_status store caller device_id s now).1 = .error .notFound ∧
        (delete_device store caller device_id).1 = .error .notFound ∧
        (start_device_tracking store caller device_id now).1 = .error .notFound ∧
        (stop_device_tracking store caller device_id).1 = .error .notFound) ∧
      (∀ d, find_by_id store device_id = some d → d.user_id ≠ caller →
        (update_device store caller device_id p now).1 = .error .forbidden ∧
        (update_device_status store caller device_id s now).1 = .error .forbidden ∧
        (delete_device store caller device_id).1 = .error .forbidden ∧
        (start_device_tracking store caller device_id now).1 = .error .forbidden ∧
        (stop_device_tracking store caller device_id).1 = .error .forbidden) ∧
      httpStatus .notFound = 404 ∧ httpStatus .forbidden = 403 := by
  intro store caller device_id p s now
  refine ⟨?_, ?_, rfl, rfl⟩
  · intro hfind
    refine ⟨?_, ?_, ?_, ?_, ?_⟩ <;>
      simp [update_device, update_device_status, delete_device, start_device_tracking,
        stop_device_tracking, hfind]
  · intro d hfind howner
    refine ⟨?_, ?_, ?_, ?_, ?_⟩ <;>
      simp [update_device, update_device_status, delete_device, start_device_tracking,
        stop_device_tracking, hfind, howner]

/-- Witness for C7: an empty store gives 404 for the update, and a
non-owner (caller 9 against owner 7) gives 403 on the same payload. -/
theorem claim_C7_witness :
    (update_device [] 7 1 badPayload 0).1 = .error .notFound ∧
    (update_device [devA] 9 1 badPayload 0).1 = .error .forbidden :=
  ⟨((claim_C7_existence_before_ownership [] 7 1 badPayload none 0).1 rfl).1,
   ((claim_C7_existence_before_ownership [devA] 9 1 badPayload none 0).2.1 devA rfl
      (by decide)).1⟩

/-- Payload of the C8 frame-effect claim: only the status key, set to
the valid value "found". -/
def statusFoundPayload : UpdatePayload :=
  ⟨none, none, none, none, none, none, some "found", none, none⟩

/-- C8: a partial update whose payload is exactly the valid status
"found" succeeds; the resulting and stored device is the old device
with only `status` set to "found" and `updated_at` refreshed — every
other field (id, user_id, name, description, category, location,
latitude, longitude, created_at) is untouched, as the record-update
result expresses. -/
theorem claim_C8_status_only_update_frame :
    ∀ (store : List Device) (caller device_id : ℕ) (now : ℕ) (d : Device),
      find_by_id store device_id = some d → d.user_id = caller →
      update_device store caller device_id statusFoundPayload now =
        (.ok { d with status := "found", updated_at := now },
         replaceById store device_id { d with status := "found", updated_at := now }) := by
  intro store caller device_id now d hfind huser
  simp only [update_device, hfind]
  rw [if_neg (fun hc => hc huser), if_neg (by simp [statusFoundPayload,
    UpdatePayload.isEmptyP])]
  rfl

/-- Witness for C8 at the concrete store [devA]. -/
theorem claim_C8_witness :
    update_device [devA] 7 1 statusFoundPayload 99 =
      (.ok { devA with status := "found", updated_at := 99 },
       replaceById [devA] 1 { devA with status := "found", updated_at := 99 }) :=
  claim_C8_status_only_update_frame [devA] 7 1 99 devA rfl rfl

/-- C9: on an existing device owned by the caller, start-tracking
succeeds exactly when the status is "lost" and both coordinates are
truthy (present and non-zero), returning the device with the token
string track_(id)_(timestamp) and leaving the store untouched;
otherwise it fails with a 400 InvalidArgument error, also leaving the
store untouched. -/
theorem claim_C9_tracking_preconditions :
    ∀ (store : List Device) (caller device_id now : ℕ) (d : Device),
      find_by_id store device_id = some d → d.user_id = caller →
      ((d.status = "lost" ∧ coordTruthy d.latitude = true ∧
          coordTruthy d.longitude = true) →
        start_device_tracking store caller device_id now =
          (.ok (d, "track_" ++ toString device_id ++ "_" ++ toString now), store)) ∧
      (¬ (d.status = "lost" ∧ coordTruthy d.latitude = true ∧
          coordTruthy d.longitude = true) →
        ∃ e, start_device_tracking store caller device_id now = (.error e, store) ∧
          httpStatus e = 400) := by
  intro store caller device_id now d hfind huser
  constructor
  · rintro ⟨hlost, hlat, hlng⟩
    simp only [start_device_tracking, hfind]
    rw [if_neg (fun hc => hc huser), if_neg (fun hc => hc hlost),
      if_neg (not_not_intro ⟨hlat, hlng⟩)]
  · intro hc
    simp only [start_device_tracking, hfind]
    rw [if_neg (fun h => h huser)]
    by_cases hlost : d.status = "lost"
    · have hcoord : ¬ (coordTruthy d.latitude = true ∧ coordTruthy d.longitude = true) :=
        fun hh => hc ⟨hlost, hh.1, hh.2⟩
      rw [if_neg (fun h => h hlost), if_pos hcoord]
      exact ⟨.locationRequired, rfl, rfl⟩
    · rw [if_pos hlost]
      exact ⟨.notLost, rfl, rfl⟩

/-- Witness for C9: devA is lost with truthy coordinates, so tracking
starts and returns the token for id 1 at time 55. -/
theorem claim_C9_witness :
    start_device_tracking [devA] 7 1 55 =
      (.ok (devA, "track_" ++ toString 1 ++ "_" ++ toString 55), [devA]) :=
  (claim_C9_tracking_preconditions [devA] 7 1 55 devA rfl rfl).1 ⟨rfl, rfl, rfl⟩

end Routes
